import Mathlib

/-!
Verification of the crate-dependency analysis core (src/models/crates.rs).

The shallow embedding translates the Rust data model and operations:
`semver::Version` values reaching this core are already-typed version
numbers ordered lexicographically by (major, minor, patch); `VersionReq`
and `RelativePathBuf` are opaque payloads produced by collaborators; the
`OrderMap` containers are insertion-ordered association lists.
-/

/-- A semantic version as consumed by the core: ordered lexicographically
by (major, minor, patch). -/
structure Version where
  major : Nat
  minor : Nat
  patch : Nat
deriving DecidableEq

/-- Strict order on versions: lexicographic on (major, minor, patch). -/
def Version.lt (a b : Version) : Bool :=
  if a.major ≠ b.major then a.major < b.major
  else if a.minor ≠ b.minor then a.minor < b.minor
  else a.patch < b.patch

/-- The derived order on `Option<Version>` used by Rust: `None` is
strictly below every `Some`, two `None`s are equal, and two `Some`s
compare by the payload.  `optVersionLt a b` embeds `a < b`. -/
def optVersionLt : Option Version → Option Version → Bool
  | none, none => false
  | none, some _ => true
  | some _, none => false
  | some a, some b => Version.lt a b

/-- An already-parsed semantic-version range expression (opaque payload). -/
structure VersionReq where
  raw : String
deriving DecidableEq

/-- An already-validated relative path (opaque payload). -/
structure RelativePathBuf where
  path : String
deriving DecidableEq

/-- `CrateName(String)`: a validated crate-name wrapper. -/
structure CrateName where
  name : String
deriving DecidableEq

/-- The character test used by `CrateName::from_str`:
`c.is_ascii_alphanumeric() || c == '_' || c == '-'`. -/
def validChar (c : Char) : Bool :=
  (c.isAlpha || c.isDigit) || c = '_' || c = '-'

/-- `CrateName::from_str`: validate every character and either wrap the
input unchanged or return the formatted error. -/
def CrateName.from_str (input : String) : Except String CrateName :=
  let is_valid := input.data.all validChar
  if !is_valid then
    Except.error ("failed to validate crate name: " ++ input)
  else
    Except.ok (CrateName.mk input)

/-- Derived `Ord` on `CrateName`: compare the single stored string. -/
def crateNameCompare (a b : CrateName) : Ordering :=
  compare a.name b.name

/-- Derived `Hash` on `CrateName`: hash the single stored string. -/
def crateNameHash (n : CrateName) : UInt64 :=
  n.name.hash

/-- `CrateRelease`: one published release observed by the registry. -/
structure CrateRelease where
  name : CrateName
  version : Version
  yanked : Bool

/-- `CrateDep`: an external registry dependency with a requirement, or a
path-internal dependency. -/
inductive CrateDep where
  | External (req : VersionReq)
  | Internal (path : RelativePathBuf)
deriving DecidableEq

/-- `CrateDep::is_external`. -/
def CrateDep.is_external : CrateDep → Bool
  | CrateDep.External _ => true
  | CrateDep.Internal _ => false

/-- `OrderMap<CrateName, α>`: an insertion-ordered association list. -/
abbrev OrderMap (α : Type) := List (CrateName × α)

/-- `CrateDeps`: the three independent ordered dependency groups. -/
structure CrateDeps where
  main : OrderMap CrateDep
  dev : OrderMap CrateDep
  build : OrderMap CrateDep

/-- `AnalyzedDependency`: freshness state for one external dependency. -/
structure AnalyzedDependency where
  required : VersionReq
  latest_that_matches : Option Version
  latest : Option Version
deriving DecidableEq

/-- `AnalyzedDependency::new`: only `required` set, both options absent. -/
def AnalyzedDependency.new (required : VersionReq) : AnalyzedDependency :=
  { required := required, latest_that_matches := none, latest := none }

/-- `AnalyzedDependency::is_outdated`: `self.latest > self.latest_that_matches`
under the derived `Option<Version>` order. -/
def AnalyzedDependency.is_outdated (d : AnalyzedDependency) : Bool :=
  optVersionLt d.latest_that_matches d.latest

/-- `AnalyzedDependencies`: the three analyzed groups. -/
structure AnalyzedDependencies where
  main : OrderMap AnalyzedDependency
  dev : OrderMap AnalyzedDependency
  build : OrderMap AnalyzedDependency

/-- `AnalyzedDependencies::new`: per group, `filter_map` keeping `External`
entries and wrapping their requirement in a fresh `AnalyzedDependency`. -/
def AnalyzedDependencies.new (deps : CrateDeps) : AnalyzedDependencies :=
  let main := deps.main.filterMap (fun p =>
    match p.2 with
    | CrateDep.External req => some (p.1, AnalyzedDependency.new req)
    | CrateDep.Internal _ => none)
  let dev := deps.dev.filterMap (fun p =>
    match p.2 with
    | CrateDep.External req => some (p.1, AnalyzedDependency.new req)
    | CrateDep.Internal _ => none)
  let build := deps.build.filterMap (fun p =>
    match p.2 with
    | CrateDep.External req => some (p.1, AnalyzedDependency.new req)
    | CrateDep.Internal _ => none)
  { main := main, dev := dev, build := build }

/-- `AnalyzedDependencies::any_outdated`: some entry of some group is
outdated. -/
def AnalyzedDependencies.any_outdated (a : AnalyzedDependencies) : Bool :=
  let main_any_outdated := a.main.any (fun p => p.2.is_outdated)
  let dev_any_outdated := a.dev.any (fun p => p.2.is_outdated)
  let build_any_outdated := a.build.any (fun p => p.2.is_outdated)
  main_any_outdated || dev_any_outdated || build_any_outdated

/-! ## Helper definitions and lemmas -/

/-- The projection applied per entry by `AnalyzedDependencies::new`. -/
def extProj (p : CrateName × CrateDep) : Option (CrateName × AnalyzedDependency) :=
  match p.2 with
  | CrateDep.External req => some (p.1, AnalyzedDependency.new req)
  | CrateDep.Internal _ => none

lemma new_main_eq (deps : CrateDeps) :
    (AnalyzedDependencies.new deps).main = deps.main.filterMap extProj := rfl

lemma new_dev_eq (deps : CrateDeps) :
    (AnalyzedDependencies.new deps).dev = deps.dev.filterMap extProj := rfl

lemma new_build_eq (deps : CrateDeps) :
    (AnalyzedDependencies.new deps).build = deps.build.filterMap extProj := rfl

lemma Version.lt_asymm {a b : Version} (h : Version.lt a b = true) :
    Version.lt b a = false := by
  rcases a with ⟨a1, a2, a3⟩
  rcases b with ⟨b1, b2, b3⟩
  simp only [Version.lt] at h ⊢
  split_ifs at h ⊢ <;> simp_all <;> omega

lemma projGroup_any_outdated_false (g : OrderMap CrateDep) :
    (g.filterMap extProj).any (fun p => p.2.is_outdated) = false := by
  induction g with
  | nil => rfl
  | cons hd tl ih =>
    rcases hd with ⟨n, d⟩
    cases d with
    | External req =>
      simpa [List.filterMap_cons, extProj, AnalyzedDependency.new,
        AnalyzedDependency.is_outdated, optVersionLt] using ih
    | Internal p =>
      simpa [List.filterMap_cons, extProj] using ih

/-- The spec's reading of the outdated predicate: `latest` strictly exceeds
`latest_that_matches` in the total order that puts an absent value below
every present one and makes two absent values equal. -/
def specOutdated (latest latest_that_matches : Option Version) : Prop :=
  match latest, latest_that_matches with
  | none, _ => False
  | some _, none => True
  | some l, some m => Version.lt m l = true

/-! ## Claims -/

/-- C1: `is_outdated()` returns true iff `latest > latest_that_matches`
under the total order on optional versions where absent is strictly below
every present value and two absent values are equal; the four listed
concrete combinations behave as stated. -/
theorem C1_is_outdated_characterization :
    (∀ d : AnalyzedDependency,
      d.is_outdated = true ↔ specOutdated d.latest d.latest_that_matches)
    ∧ (∀ r, (AnalyzedDependency.mk r none none).is_outdated = false)
    ∧ (∀ r, (AnalyzedDependency.mk r none (some (Version.mk 1 0 0))).is_outdated = true)
    ∧ (∀ r, (AnalyzedDependency.mk r (some (Version.mk 1 0 0)) (some (Version.mk 1 0 0))).is_outdated = false)
    ∧ (∀ r, (AnalyzedDependency.mk r (some (Version.mk 1 5 0)) (some (Version.mk 2 0 0))).is_outdated = true) := by
  refine ⟨?_, fun r => rfl, fun r => rfl, fun r => rfl, fun r => rfl⟩
  intro d
  rcases d with ⟨req, m, l⟩
  cases l <;> cases m <;>
    simp [AnalyzedDependency.is_outdated, optVersionLt, specOutdated]

/-- C6: when both fields are present and `latest_that_matches` strictly
exceeds `latest` (the collaborator invariant violated), `is_outdated()`
returns false rather than signalling an error. -/
theorem C6_violated_invariant_not_outdated
    (req : VersionReq) (l m : Version) (h : Version.lt l m = true) :
    (AnalyzedDependency.mk req (some m) (some l)).is_outdated = false := by
  show Version.lt m l = false
  exact Version.lt_asymm h

/-- C6 witness: latest 1.0.0, latest_that_matches 2.0.0. -/
theorem C6_witness :
    Version.lt (Version.mk 1 0 0) (Version.mk 2 0 0) = true ∧
    (AnalyzedDependency.mk (VersionReq.mk "^1")
      (some (Version.mk 2 0 0)) (some (Version.mk 1 0 0))).is_outdated = false :=
  ⟨by decide, C6_violated_invariant_not_outdated _ _ _ (by decide)⟩

/-- C9: `is_external()` is true exactly on the `External` variant and
false on the `Internal` variant. -/
theorem C9_is_external_characterization :
    (∀ r, (CrateDep.External r).is_external = true)
    ∧ (∀ p, (CrateDep.Internal p).is_external = false)
    ∧ (∀ d : CrateDep, d.is_external = true ↔ ∃ r, d = CrateDep.External r) := by
  refine ⟨fun r => rfl, fun p => rfl, ?_⟩
  intro d
  cases d with
  | External r => simp [CrateDep.is_external]
  | Internal p => simp [CrateDep.is_external]

/-- C10: a freshly constructed `AnalyzedDependency` is never outdated, and
a freshly projected `AnalyzedDependencies` has `any_outdated() == false`. -/
theorem C10_fresh_never_outdated :
    (∀ req, (AnalyzedDependency.new req).is_outdated = false)
    ∧ (∀ deps : CrateDeps,
        (AnalyzedDependencies.new deps).any_outdated = false) := by
  refine ⟨fun req => rfl, ?_⟩
  intro deps
  simp only [AnalyzedDependencies.any_outdated, new_main_eq, new_dev_eq,
    new_build_eq, projGroup_any_outdated_false, Bool.or_self, Bool.or_false]

/-- The spec's character set for crate names: `[A-Za-z0-9_-]`. -/
def specAllowed (c : Char) : Prop :=
  ('A' ≤ c ∧ c ≤ 'Z') ∨ ('a' ≤ c ∧ c ≤ 'z') ∨ ('0' ≤ c ∧ c ≤ '9') ∨ c = '_' ∨ c = '-'

lemma charLe_iff (a b : Char) : a ≤ b ↔ a.val ≤ b.val := Iff.rfl

lemma validChar_iff (c : Char) : validChar c = true ↔ specAllowed c := by
  simp only [validChar, Char.isAlpha, Char.isUpper, Char.isLower, Char.isDigit,
    Bool.or_eq_true, Bool.and_eq_true, decide_eq_true_eq, specAllowed, charLe_iff]
  norm_num
  tauto

lemma from_str_ok_iff (s : String) :
    CrateName.from_str s = Except.ok (CrateName.mk s) ↔ ∀ c ∈ s.data, specAllowed c := by
  by_cases h : s.data.all validChar = true
  · have hall := List.all_eq_true.mp h
    simp only [CrateName.from_str, h, Bool.not_true, Bool.false_eq_true, if_false, true_iff]
    exact fun c hc => (validChar_iff c).1 (hall c hc)
  · have h2 : s.data.all validChar = false := by simpa using h
    simp only [CrateName.from_str, h2, Bool.not_false, if_true]
    constructor
    · intro hcontra; cases hcontra
    · intro hall
      exact absurd (List.all_eq_true.mpr (fun c hc => (validChar_iff c).2 (hall c hc))) h

lemma from_str_error_iff (s : String) :
    (∃ c ∈ s.data, ¬ specAllowed c) ↔
      CrateName.from_str s = Except.error ("failed to validate crate name: " ++ s) := by
  by_cases h : s.data.all validChar = true
  · have hall := List.all_eq_true.mp h
    simp only [CrateName.from_str, h, Bool.not_true, Bool.false_eq_true, if_false]
    constructor
    · rintro ⟨c, hc, hbad⟩
      exact absurd ((validChar_iff c).1 (hall c hc)) hbad
    · intro hcontra; cases hcontra
  · have h2 : s.data.all validChar = false := by simpa using h
    simp only [CrateName.from_str, h2, Bool.not_false, if_true, iff_true]
    rw [List.all_eq_false] at h2
    obtain ⟨c, hc, hbad⟩ := h2
    exact ⟨c, hc, fun hs => hbad (by simpa using (validChar_iff c).2 hs)⟩

lemma from_str_isOk_iff (s : String) :
    (CrateName.from_str s).isOk = true ↔ ∀ c ∈ s.data, specAllowed c := by
  by_cases h : s.data.all validChar = true
  · have hall := List.all_eq_true.mp h
    simp only [CrateName.from_str, h, Bool.not_true, Bool.false_eq_true, if_false,
      Except.isOk, Except.toBool, true_iff]
    exact fun c hc => (validChar_iff c).1 (hall c hc)
  · have h2 : s.data.all validChar = false := by simpa using h
    simp only [CrateName.from_str, h2, Bool.not_false, if_true,
      Except.isOk, Except.toBool, Bool.false_eq_true, false_iff]
    intro hall
    exact absurd (List.all_eq_true.mpr (fun c hc => (validChar_iff c).2 (hall c hc))) h

/-- C4: parsing a crate name fails (with the invalid-name error) exactly
when some character lies outside `[A-Za-z0-9_-]`, and otherwise succeeds
returning the wrapped input unchanged; the four listed examples behave as
stated. -/
theorem C4_from_str_characterization :
    (∀ s : String,
      CrateName.from_str s = Except.ok (CrateName.mk s) ↔ ∀ c ∈ s.data, specAllowed c)
    ∧ (∀ s : String,
      (∃ c ∈ s.data, ¬ specAllowed c) ↔
        CrateName.from_str s = Except.error ("failed to validate crate name: " ++ s))
    ∧ CrateName.from_str "serde_derive-2" = Except.ok (CrateName.mk "serde_derive-2")
    ∧ CrateName.from_str "serde.derive" = Except.error "failed to validate crate name: serde.derive"
    ∧ CrateName.from_str "a/b" = Except.error "failed to validate crate name: a/b"
    ∧ CrateName.from_str "a@1" = Except.error "failed to validate crate name: a@1" :=
  ⟨from_str_ok_iff, from_str_error_iff, rfl, rfl, rfl, rfl⟩

/-- C5: parsing the empty string succeeds; a name is accepted iff every
character is in `[A-Za-z0-9_-]`, with no length bound (names of every
length are accepted). -/
theorem C5_empty_and_no_length_bound :
    CrateName.from_str "" = Except.ok (CrateName.mk "")
    ∧ (∀ s : String, (CrateName.from_str s).isOk = true ↔ ∀ c ∈ s.data, specAllowed c)
    ∧ (∀ n : Nat, (CrateName.from_str (String.mk (List.replicate n 'a'))).isOk = true) := by
  refine ⟨rfl, from_str_isOk_iff, ?_⟩
  intro n
  rw [from_str_isOk_iff]
  intro c hc
  rw [List.eq_of_mem_replicate hc]
  exact (validChar_iff 'a').1 (by decide)

/-- Requirement payload of a dependency; the `Internal` case is a junk
default only ever applied under an `is_external` filter. -/
def reqOf : CrateDep → VersionReq
  | CrateDep.External r => r
  | CrateDep.Internal _ => VersionReq.mk ""

/-- The spec's reading of the per-group projection: keep only entries
whose dependency is `External` (order preserved), then map each surviving
entry to a freshly constructed `AnalyzedDependency` of its requirement. -/
def spec_project (g : OrderMap CrateDep) : OrderMap AnalyzedDependency :=
  (g.filter (fun p => p.2.is_external)).map
    (fun p => (p.1, AnalyzedDependency.new (reqOf p.2)))

lemma filterMap_eq_spec_project (g : OrderMap CrateDep) :
    g.filterMap extProj = spec_project g := by
  unfold spec_project
  induction g with
  | nil => rfl
  | cons hd tl ih =>
    rcases hd with ⟨n, d⟩
    cases d with
    | External r =>
      simp only [List.filterMap_cons, extProj, List.filter_cons, CrateDep.is_external,
        if_true, List.map_cons, reqOf, ih]
    | Internal p =>
      simp only [List.filterMap_cons, extProj, List.filter_cons, CrateDep.is_external,
        Bool.false_eq_true, if_false, ih]

lemma mem_proj_iff (g : OrderMap CrateDep) (n : CrateName) (ad : AnalyzedDependency) :
    (n, ad) ∈ g.filterMap extProj ↔
      ∃ req, (n, CrateDep.External req) ∈ g ∧ ad = AnalyzedDependency.new req := by
  rw [List.mem_filterMap]
  constructor
  · rintro ⟨⟨n2, d⟩, hmem, heq⟩
    cases d with
    | External r =>
      simp only [extProj, Option.some.injEq, Prod.mk.injEq] at heq
      obtain ⟨h1, h2⟩ := heq
      subst h1
      exact ⟨r, hmem, h2.symm⟩
    | Internal p =>
      simp [extProj] at heq
  · rintro ⟨req, hmem, rfl⟩
    exact ⟨(n, CrateDep.External req), hmem, rfl⟩

/-- C2: `AnalyzedDependencies::new` keeps, per group and in the original
order, exactly the `External` entries, each under its original key and
mapped to `AnalyzedDependency::new` of its requirement (so `required` is
the original requirement and both optional fields are absent); `Internal`
entries are omitted without error. -/
theorem C2_projection (deps : CrateDeps) :
    ((AnalyzedDependencies.new deps).main = spec_project deps.main)
    ∧ ((AnalyzedDependencies.new deps).dev = spec_project deps.dev)
    ∧ ((AnalyzedDependencies.new deps).build = spec_project deps.build)
    ∧ (∀ n ad, (n, ad) ∈ (AnalyzedDependencies.new deps).main ↔
        ∃ req, (n, CrateDep.External req) ∈ deps.main ∧ ad = AnalyzedDependency.new req)
    ∧ (∀ n ad, (n, ad) ∈ (AnalyzedDependencies.new deps).dev ↔
        ∃ req, (n, CrateDep.External req) ∈ deps.dev ∧ ad = AnalyzedDependency.new req)
    ∧ (∀ n ad, (n, ad) ∈ (AnalyzedDependencies.new deps).build ↔
        ∃ req, (n, CrateDep.External req) ∈ deps.build ∧ ad = AnalyzedDependency.new req) := by
  refine ⟨?_, ?_, ?_, ?_, ?_, ?_⟩
  · rw [new_main_eq, filterMap_eq_spec_project]
  · rw [new_dev_eq, filterMap_eq_spec_project]
  · rw [new_build_eq, filterMap_eq_spec_project]
  · intro n ad; rw [new_main_eq]; exact mem_proj_iff deps.main n ad
  · intro n ad; rw [new_dev_eq]; exact mem_proj_iff deps.dev n ad
  · intro n ad; rw [new_build_eq]; exact mem_proj_iff deps.build n ad

/-- C3: `any_outdated()` is true iff some entry of some group is outdated;
it is false on the empty value and true when a lone dev entry is outdated. -/
theorem C3_any_outdated_characterization :
    (∀ a : AnalyzedDependencies,
      a.any_outdated = true ↔
        ((∃ p ∈ a.main, p.2.is_outdated = true)
          ∨ (∃ p ∈ a.dev, p.2.is_outdated = true)
          ∨ (∃ p ∈ a.build, p.2.is_outdated = true)))
    ∧ (AnalyzedDependencies.mk [] [] []).any_outdated = false
    ∧ (AnalyzedDependencies.mk []
        [(CrateName.mk "x",
          AnalyzedDependency.mk (VersionReq.mk "^1") none (some (Version.mk 1 0 0)))]
        []).any_outdated = true := by
  refine ⟨?_, rfl, rfl⟩
  intro a
  simp [AnalyzedDependencies.any_outdated, List.any_eq_true]
  exact or_assoc

lemma from_str_ok_inv {s : String} {n : CrateName}
    (h : CrateName.from_str s = Except.ok n) : n = CrateName.mk s := by
  by_cases hb : s.data.all validChar = true
  · simp only [CrateName.from_str, hb, Bool.not_true, Bool.false_eq_true, if_false,
      Except.ok.injEq] at h
    exact h.symm
  · have h2 : s.data.all validChar = false := by simpa using hb
    simp [CrateName.from_str, h2] at h

/-- C7: equality, ordering and hashing of `CrateName` are structural over
the stored string: two parsed names are equal exactly when their source
strings are, comparison agrees with string comparison, and names built
from the identical string hash identically regardless of construction. -/
theorem C7_structural_eq_ord_hash :
    (∀ a b : CrateName, a = b ↔ a.name = b.name)
    ∧ (∀ a b : CrateName, crateNameCompare a b = compare a.name b.name)
    ∧ (∀ s t : String, ∀ n m : CrateName,
        CrateName.from_str s = Except.ok n → CrateName.from_str t = Except.ok m →
          (n = m ↔ s = t))
    ∧ (∀ s : String, ∀ n : CrateName,
        CrateName.from_str s = Except.ok n →
          crateNameHash n = crateNameHash (CrateName.mk s)) := by
  refine ⟨?_, fun a b => rfl, ?_, ?_⟩
  · intro a b
    cases a; cases b
    simp [CrateName.mk.injEq]
  · intro s t n m hn hm
    rw [from_str_ok_inv hn, from_str_ok_inv hm]
    simp [CrateName.mk.injEq]
  · intro s n hn
    rw [from_str_ok_inv hn]

/-- C7 witness: parsed "serde" and "tokio" compare as the strings do, and
the hash of a parsed name matches the hash of the directly built one. -/
theorem C7_witness :
    ((CrateName.mk "serde" = CrateName.mk "tokio") ↔ ("serde" : String) = "tokio")
    ∧ crateNameHash (CrateName.mk "serde") = crateNameHash (CrateName.mk "serde") :=
  ⟨C7_structural_eq_ord_hash.2.2.1 "serde" "tokio"
      (CrateName.mk "serde") (CrateName.mk "tokio") rfl rfl,
   C7_structural_eq_ord_hash.2.2.2 "serde" (CrateName.mk "serde") rfl⟩

/-- C8: the three groups do not interfere: the projected `main` group of
`AnalyzedDependencies::new` depends only on the input `main` group (and
symmetrically for `dev` and `build`), and whether any entry of a group is
outdated depends only on that group. -/
theorem C8_group_noninterference :
    (∀ d1 d2 : CrateDeps, d1.main = d2.main →
      (AnalyzedDependencies.new d1).main = (AnalyzedDependencies.new d2).main)
    ∧ (∀ d1 d2 : CrateDeps, d1.dev = d2.dev →
      (AnalyzedDependencies.new d1).dev = (AnalyzedDependencies.new d2).dev)
    ∧ (∀ d1 d2 : CrateDeps, d1.build = d2.build →
      (AnalyzedDependencies.new d1).build = (AnalyzedDependencies.new d2).build)
    ∧ (∀ a1 a2 : AnalyzedDependencies, a1.main = a2.main →
        a1.main.any (fun p => p.2.is_outdated) = a2.main.any (fun p => p.2.is_outdated))
    ∧ (∀ a1 a2 : AnalyzedDependencies, a1.dev = a2.dev →
        a1.dev.any (fun p => p.2.is_outdated) = a2.dev.any (fun p => p.2.is_outdated))
    ∧ (∀ a1 a2 : AnalyzedDependencies, a1.build = a2.build →
        a1.build.any (fun p => p.2.is_outdated) = a2.build.any (fun p => p.2.is_outdated)) := by
  refine ⟨?_, ?_, ?_, fun a1 a2 h => by rw [h], fun a1 a2 h => by rw [h],
    fun a1 a2 h => by rw [h]⟩
  · intro d1 d2 h; rw [new_main_eq, new_main_eq, h]
  · intro d1 d2 h; rw [new_dev_eq, new_dev_eq, h]
  · intro d1 d2 h; rw [new_build_eq, new_build_eq, h]

/-- C8 witness: two inputs that agree on `main` but differ in `dev` yield
the same projected `main` group, and two analyzed values that agree on
`main` but differ in `dev` agree on whether any `main` entry is outdated. -/
theorem C8_witness :
    ((AnalyzedDependencies.new (CrateDeps.mk [] [] [])).main =
      (AnalyzedDependencies.new (CrateDeps.mk []
        [(CrateName.mk "util", CrateDep.Internal (RelativePathBuf.mk "../util"))]
        [])).main)
    ∧ ((AnalyzedDependencies.mk [] [] []).main.any (fun p => p.2.is_outdated) =
        (AnalyzedDependencies.mk []
          [(CrateName.mk "x",
            AnalyzedDependency.mk (VersionReq.mk "^1") none (some (Version.mk 1 0 0)))]
          []).main.any (fun p => p.2.is_outdated)) :=
  ⟨C8_group_noninterference.1 _ _ rfl,
   C8_group_noninterference.2.2.2.1 _ _ rfl⟩
